import Mathlib

/-!
Verification of the domain core of a DDD-style user CRUD service
(value objects, entity event buffering, event dispatcher, user aggregate,
create/update use cases), shallowly embedded from the Python sources under
`src/modules/`.

Conventions of the embedding:
* Python `str` is `String`; `len` is `String.length` (code points in both).
* `ValueError` raised in `__post_init__` is modelled by smart constructors
  returning `Except String _` (the message string is the `ValueError` text);
  a dataclass value exists only in the `.ok` branch, so "no partially
  constructed value" is inherent.
* Nondeterministic inputs (`ObjectId()` draws, `datetime.now()`) are passed
  in explicitly as parameters.
* In-place mutation (`User.change_email`) is explicit state passing: the
  function returns the post-call object together with `Option String`
  (`some msg` = a `ValueError` escaped; the returned object is the state at
  the moment the exception was raised).
-/

/-- ASCII whitespace stripped by Python `str.strip()` with no argument
(space, tab, newline, carriage return, vertical tab, form feed). -/
def isPySpace (c : Char) : Bool :=
  c = ' ' || c = '\t' || c = '\n' || c = '\r' || c = '\x0b' || c = '\x0c'

/-- Python `str.strip()`: drop leading and trailing whitespace. -/
def pyStrip (s : String) : String :=
  String.mk (((s.data.dropWhile isPySpace).reverse.dropWhile isPySpace).reverse)

/-- Python `str.split(sep)` for a one-character separator: split the character
list at every occurrence of `sep` (adjacent separators yield empty parts,
exactly as in Python). -/
def pySplit (sep : Char) : List Char → List (List Char)
  | [] => [[]]
  | c :: cs =>
    if c = sep then [] :: pySplit sep cs
    else
      match pySplit sep cs with
      | [] => [[c]]
      | p :: ps => (c :: p) :: ps

/-- `value_objects/name.py`: the `Name` dataclass, field `value`. -/
structure Name where
  value : String
deriving DecidableEq, Repr

/-- `Name.__post_init__`: `Name(value)` either raises `ValueError` or yields
the dataclass. Checks, in source order: empty / whitespace-only, stripped
length < 2, raw length > 100. -/
def Name.construct (s : String) : Except String Name :=
  if s = "" ∨ pyStrip s = "" then .error "Name cannot be empty"
  else if (pyStrip s).length < 2 then .error "Name must have at least 2 characters"
  else if s.length > 100 then .error "Name cannot exceed 100 characters"
  else .ok ⟨s⟩

/-- `value_objects/age.py`: the `Age` dataclass, field `value` (Python `int`,
unbounded, hence `Int`). -/
structure Age where
  value : Int
deriving DecidableEq, Repr

/-- `Age.__post_init__`: negative or above 150 raises `ValueError`. -/
def Age.construct (n : Int) : Except String Age :=
  if n < 0 then .error "Age cannot be negative"
  else if n > 150 then .error "Age cannot exceed 150 years"
  else .ok ⟨n⟩

/-- `Age.is_adult`: `self.value >= 18`. -/
def Age.is_adult (a : Age) : Bool :=
  a.value ≥ 18

/-- Character class `[a-zA-Z0-9._%+-]` of the email pattern's local part
(`Char.isAlpha` / `Char.isDigit` are exactly the ASCII ranges). -/
def isLocalChar (c : Char) : Bool :=
  c.isAlpha || c.isDigit || c = '.' || c = '_' || c = '%' || c = '+' || c = '-'

/-- Character class `[a-zA-Z0-9.-]` of the email pattern's domain part. -/
def isDomainChar (c : Char) : Bool :=
  c.isAlpha || c.isDigit || c = '.' || c = '-'

/-- Split a character list at its last `'.'`: `some (d, t)` with
`cs = d ++ '.' :: t` and no `'.'` in `t`, or `none` when there is no dot. -/
def splitLastDot : List Char → Option (List Char × List Char)
  | [] => none
  | c :: cs =>
    match splitLastDot cs with
    | some (d, t) => some (c :: d, t)
    | none => if c = '.' then some ([], cs) else none

/-- Match of `[a-zA-Z0-9.-]+\.[a-zA-Z]\x7b2,\x7d` against a whole suffix: the
backtracking regex succeeds iff the split at the last dot leaves a non-empty
domain run and a final label of at least 2 ASCII letters. -/
def matchDomainTail (cs : List Char) : Bool :=
  match splitLastDot cs with
  | some (d, t) => !d.isEmpty && d.all isDomainChar && decide (2 ≤ t.length) && t.all Char.isAlpha
  | none => false

/-- `re.match` of `email.py`'s pattern
`^[a-zA-Z0-9._%+-]+@[a-zA-Z0-9.-]+\.[a-zA-Z]\x7b2,\x7d$` against `s`.
Since `'@'` is in neither character class, the local run is the maximal run
of local characters and must be followed by `'@'`; Python's `$` also matches
just before one final `'\n'`, so such a trailing newline is dropped before
matching the domain tail. -/
def emailRegexMatch (s : String) : Bool :=
  let cs := s.data
  let l := cs.takeWhile isLocalChar
  match cs.dropWhile isLocalChar with
  | '@' :: r =>
    let r2 := if r.getLast? = some '\n' then r.dropLast else r
    !l.isEmpty && matchDomainTail r2
  | _ => false

/-- `value_objects/email.py`: the `Email` dataclass, field `value`. -/
structure Email where
  value : String
deriving DecidableEq, Repr

/-- `Email.__post_init__`: checks, in source order: empty, regex mismatch,
raw length > 254. -/
def Email.construct (s : String) : Except String Email :=
  if s = "" then .error "Email cannot be empty"
  else if !emailRegexMatch s then .error "Invalid email format"
  else if s.length > 254 then .error "Email cannot exceed 254 characters"
  else .ok ⟨s⟩

/-- `Email.domain`: `self.value.split("@")[1]`. -/
def Email.domain (e : Email) : String :=
  String.mk ((pySplit '@' e.value.data).getD 1 [])

/-- `Email.local_part`: `self.value.split("@")[0]`. -/
def Email.local_part (e : Email) : String :=
  String.mk ((pySplit '@' e.value.data).getD 0 [])

/-- `bson.ObjectId` entity identifiers: opaque values with decidable
equality, modelled as `Nat`. -/
abbrev ObjectId := Nat

/-- `datetime` timestamps: opaque, modelled as `Nat` (`datetime.now()` draws
are passed in as explicit `now` parameters). -/
abbrev Timestamp := Nat

/-- `domain_event.py` / `events.py`: the closed world of concrete
`DomainEvent` dataclasses of this repository. Both carry the base fields
`aggregate_id` and `occurred_at`; `UserCreated` adds `name`, `email`, `age`
and `UserEmailChanged` adds `old_email`, `new_email`. -/
inductive DomainEvent where
  | userCreated (aggregate_id : ObjectId) (occurred_at : Timestamp)
      (name : String) (email : String) (age : Int)
  | userEmailChanged (aggregate_id : ObjectId) (occurred_at : Timestamp)
      (old_email : String) (new_email : String)
deriving DecidableEq, Repr

/-- The runtime type of an event, as used by `type(event)` keys in the
dispatcher's `_handlers` dict. -/
inductive EventType where
  | userCreatedType
  | userEmailChangedType
deriving DecidableEq, Repr

/-- `type(event)` for the two concrete event classes. -/
def DomainEvent.typeOf : DomainEvent → EventType
  | .userCreated .. => .userCreatedType
  | .userEmailChanged .. => .userEmailChangedType

/-- `UserCreated.create(aggregate_id, name, email, age)` with
`occurred_at=datetime.now()` passed in as `now`. -/
def UserCreated.create (aggregate_id : ObjectId) (now : Timestamp)
    (name : String) (email : String) (age : Int) : DomainEvent :=
  .userCreated aggregate_id now name email age

/-- `UserEmailChanged.create(aggregate_id, old_email, new_email)` with
`occurred_at=datetime.now()` passed in as `now`. -/
def UserEmailChanged.create (aggregate_id : ObjectId) (now : Timestamp)
    (old_email : String) (new_email : String) : DomainEvent :=
  .userEmailChanged aggregate_id now old_email new_email

/-- `user.py`: the `User` entity. The `Entity` base class of `entity.py` is
inlined: `id` (auto-generated `ObjectId`, here passed in explicitly) and the
private `_domain_events` buffer, plus the `User` fields `name`, `age`,
`email`. -/
structure User where
  id : ObjectId
  name : Name
  age : Age
  email : Email
  domain_events : List DomainEvent
deriving DecidableEq, Repr

/-- `Entity.add_domain_event`: `self._domain_events.append(event)`. -/
def User.add_domain_event (u : User) (event : DomainEvent) : User :=
  { u with domain_events := u.domain_events ++ [event] }

/-- `Entity.clear_domain_events`: `self._domain_events.clear()`. -/
def User.clear_domain_events (u : User) : User :=
  { u with domain_events := [] }

/-- `user.py`'s `UserProperties` TypedDict. -/
structure UserProperties where
  name : String
  age : Int
  email : String
deriving DecidableEq, Repr

/-- `User.create(properties)`: construct the three value objects (in the
keyword order `name`, `age`, `email`, failing fast on the first
`ValueError`), take a freshly drawn id (`newId` models the `ObjectId()`
default factory), and buffer one `UserCreated` event built from `user.id`
and the raw property values. -/
def User.create (newId : ObjectId) (now : Timestamp) (properties : UserProperties) :
    Except String User := do
  let n ← Name.construct properties.name
  let a ← Age.construct properties.age
  let e ← Email.construct properties.email
  let user : User := { id := newId, name := n, age := a, email := e, domain_events := [] }
  let user := user.add_domain_event
    (UserCreated.create user.id now properties.name properties.email properties.age)
  pure user

/-- `User.restore(user_id, properties)`: same validation as `create`; the
freshly drawn id of `cls(...)` is immediately overwritten by
`user.id = user_id`, and no event is buffered. -/
def User.restore (user_id : ObjectId) (properties : UserProperties) :
    Except String User := do
  let n ← Name.construct properties.name
  let a ← Age.construct properties.age
  let e ← Email.construct properties.email
  pure { id := user_id, name := n, age := a, email := e, domain_events := [] }

/-- `User.is_adult`: delegates to `Age.is_adult`. -/
def User.is_adult (u : User) : Bool :=
  u.age.is_adult

/-- `User.change_email(new_email)`, statement by statement:
`old_email = self.email.value`; `new_email_vo = Email(new_email)` (a
`ValueError` here escapes with the object untouched, hence `(u, some msg)`);
`self.email = new_email_vo`; then buffer one `UserEmailChanged` event. -/
def User.change_email (u : User) (now : Timestamp) (new_email : String) :
    User × Option String :=
  let old_email := u.email.value
  match Email.construct new_email with
  | .error msg => (u, some msg)
  | .ok new_email_vo =>
    let u := { u with email := new_email_vo }
    let u := u.add_domain_event (UserEmailChanged.create u.id now old_email new_email)
    (u, none)

/-- `event_dispatcher.py`: the `EventDispatcher`'s `_handlers` dict, as the
total function `EventType → List H` (a missing key is the empty list, as in
`self._handlers.get(type(event), [])`). Handlers are abstract values of
`H`. -/
structure EventDispatcher (H : Type) where
  handlers : EventType → List H

/-- A fresh dispatcher: `self._handlers = \x7b\x7d`. -/
def EventDispatcher.empty {H : Type} : EventDispatcher H :=
  ⟨fun _ => []⟩

/-- `EventDispatcher.subscribe(event_type, handler)`: append to the key's
list, creating it when absent. -/
def EventDispatcher.subscribe {H : Type} (d : EventDispatcher H)
    (event_type : EventType) (handler : H) : EventDispatcher H :=
  ⟨fun t => if t = event_type then d.handlers t ++ [handler] else d.handlers t⟩

/-- `EventDispatcher.get_handler_count(event_type)`. -/
def EventDispatcher.get_handler_count {H : Type} (d : EventDispatcher H)
    (event_type : EventType) : Nat :=
  (d.handlers event_type).length

/-- `EventDispatcher.clear_handlers()`. -/
def EventDispatcher.clear_handlers {H : Type} (_d : EventDispatcher H) :
    EventDispatcher H :=
  ⟨fun _ => []⟩

/-- The inner loop of `dispatch`: `for handler in handlers:
handler.handle(event)`. A handler's behaviour is the oracle
`behave : H → DomainEvent → Option ε` (`some err` = `handle` raised `err`).
Returns the sequence of `handle` invocations actually made, paired with the
escaping exception if any: a raising handler is invoked (appears in the
trace) and aborts the loop. -/
def runHandlers {H ε : Type} (behave : H → DomainEvent → Option ε)
    (event : DomainEvent) : List H → List (H × DomainEvent) × Option ε
  | [] => ([], none)
  | h :: hs =>
    match behave h event with
    | some err => ([(h, event)], some err)
    | none =>
      let (tr, r) := runHandlers behave event hs
      ((h, event) :: tr, r)

/-- `EventDispatcher.dispatch(events)`: for each event in order, look up the
handlers for its exact runtime type and invoke each synchronously in
registration order; an exception escaping a handler aborts the remaining
handlers and the remaining events. Result: the full invocation trace and
the escaping exception if any. -/
def EventDispatcher.dispatch {H ε : Type} (d : EventDispatcher H)
    (behave : H → DomainEvent → Option ε) :
    List DomainEvent → List (H × DomainEvent) × Option ε
  | [] => ([], none)
  | e :: es =>
    let (tr, r) := runHandlers behave e (d.handlers e.typeOf)
    match r with
    | some err => (tr, some err)
    | none =>
      let (tr2, r2) := d.dispatch behave es
      (tr ++ tr2, r2)

/-- `EventDispatcher.dispatch_single(event)`: `self.dispatch([event])`. -/
def EventDispatcher.dispatch_single {H ε : Type} (d : EventDispatcher H)
    (behave : H → DomainEvent → Option ε) (event : DomainEvent) :
    List (H × DomainEvent) × Option ε :=
  d.dispatch behave [event]

/-- The exceptions a use case's `execute` can propagate: a value-object
`ValueError`, `UserNotFoundException`, a repository write failure
(`PersistenceError`, modelled by the repository oracle returning
`.error msg`), or an exception `err : ε` escaping a subscribed handler. -/
inductive UCError (ε : Type) where
  | validation (msg : String)
  | notFound (msg : String)
  | persistence (msg : String)
  | handler (err : ε)

/-- The observable outcome of one `execute` run: `result` is the returned
`User` or the escaping exception, `trace` the handler invocations the
dispatcher made during the run, and `aggregate` the final state of the
aggregate object the use case built (`none` when it was never
constructed). -/
structure ExecOutcome (H ε : Type) where
  result : Except (UCError ε) User
  trace : List (H × DomainEvent)
  aggregate : Option User

/-- `create_user_use_case.py`'s `CreateUserCommand`. -/
structure CreateUserCommand where
  name : String
  age : Int
  email : String
deriving DecidableEq, Repr

/-- `update_user_use_case.py`'s `UpdateUserCommand` (`None` = field
unset). -/
structure UpdateUserCommand where
  user_id : String
  name : Option String
  age : Option Int
  email : Option String
deriving DecidableEq, Repr

/-- `CreateUserUseCase.execute(command)`. The injected repository's
`create_user` is the oracle `repo_create` (`.error msg` = it raised a write
failure); the injected dispatcher is `d` with handler behaviour `behave`.
Steps: build `UserProperties` from the command; `User.create` (a
`ValueError` escapes); `create_user(user)` with the result discarded (a
failure escapes before any dispatch); `dispatch(user.domain_events)` (a
handler exception escapes before the buffer is cleared);
`user.clear_domain_events()`; return `user`. -/
def CreateUserUseCase.execute {H ε : Type}
    (repo_create : User → Except String User)
    (d : EventDispatcher H) (behave : H → DomainEvent → Option ε)
    (newId : ObjectId) (now : Timestamp) (command : CreateUserCommand) :
    ExecOutcome H ε :=
  match User.create newId now
      { name := command.name, age := command.age, email := command.email } with
  | .error msg => { result := .error (.validation msg), trace := [], aggregate := none }
  | .ok user =>
    match repo_create user with
    | .error msg => { result := .error (.persistence msg), trace := [], aggregate := some user }
    | .ok _ =>
      let (tr, r) := d.dispatch behave user.domain_events
      match r with
      | some err => { result := .error (.handler err), trace := tr, aggregate := some user }
      | none =>
        let user := user.clear_domain_events
        { result := .ok user, trace := tr, aggregate := some user }

/-- `UpdateUserUseCase.execute(command)`. Oracles: `get_user_by_id` for the
repository read (`none` = not found, raising `UserNotFoundException`) and
`update_user` for the write (`.error msg` = it raised; its `.ok` payload —
even a `none` "user vanished" sentinel — is discarded, as in
`_ = await self.user_repository.update_user(...)`). Steps: look up the
existing user; build `UserProperties` keeping each unset field's existing
value; `User.restore` with the existing id; persist; dispatch the restored
aggregate's buffered events; clear; return. -/
def UpdateUserUseCase.execute {H ε : Type}
    (get_user_by_id : String → Option User)
    (update_user : String → User → Except String (Option User))
    (d : EventDispatcher H) (behave : H → DomainEvent → Option ε)
    (command : UpdateUserCommand) : ExecOutcome H ε :=
  match get_user_by_id command.user_id with
  | none =>
    { result := .error (.notFound ("User with ID " ++ command.user_id ++ " not found")),
      trace := [], aggregate := none }
  | some existing_user =>
    let updated_properties : UserProperties :=
      { name := command.name.getD existing_user.name.value,
        age := command.age.getD existing_user.age.value,
        email := command.email.getD existing_user.email.value }
    match User.restore existing_user.id updated_properties with
    | .error msg => { result := .error (.validation msg), trace := [], aggregate := none }
    | .ok updated_user =>
      match update_user command.user_id updated_user with
      | .error msg =>
        { result := .error (.persistence msg), trace := [], aggregate := some updated_user }
      | .ok _ =>
        let (tr, r) := d.dispatch behave updated_user.domain_events
        match r with
        | some err =>
          { result := .error (.handler err), trace := tr, aggregate := some updated_user }
        | none =>
          let updated_user := updated_user.clear_domain_events
          { result := .ok updated_user, trace := tr, aggregate := some updated_user }

/-! ## Helper lemmas -/

/-- A successful `Name` construction stores the raw (untrimmed) string. -/
theorem name_construct_ok {s : String} {n : Name}
    (h : Name.construct s = .ok n) : n = ⟨s⟩ := by
  unfold Name.construct at h
  split at h
  · exact Except.noConfusion h
  split at h
  · exact Except.noConfusion h
  split at h
  · exact Except.noConfusion h
  exact (Except.ok.inj h).symm

/-- A successful `Age` construction stores the given integer. -/
theorem age_construct_ok {n : Int} {a : Age}
    (h : Age.construct n = .ok a) : a = ⟨n⟩ := by
  unfold Age.construct at h
  split at h
  · exact Except.noConfusion h
  split at h
  · exact Except.noConfusion h
  exact (Except.ok.inj h).symm

/-- A successful `Email` construction stores the raw string. -/
theorem email_construct_ok {s : String} {e : Email}
    (h : Email.construct s = .ok e) : e = ⟨s⟩ := by
  unfold Email.construct at h
  split at h
  · exact Except.noConfusion h
  split at h
  · exact Except.noConfusion h
  split at h
  · exact Except.noConfusion h
  exact (Except.ok.inj h).symm

/-- A successful `Email` construction passed the regex check. -/
theorem email_construct_ok_match {s : String} {e : Email}
    (h : Email.construct s = .ok e) : emailRegexMatch s = true := by
  unfold Email.construct at h
  split at h
  · exact Except.noConfusion h
  split at h
  next hm => exact Except.noConfusion h
  next hm => simpa using hm

example : (Name.construct "Jane Doe").isOk = true := by decide
example : (Name.construct "A").isOk = false := by decide
example : (Age.construct 30).isOk = true := by decide
example : emailRegexMatch "jane@example.com" = true := by decide
example : emailRegexMatch "bad-email" = false := by decide
example : (Email.construct "jane@example.com").isOk = true := by decide

/-- A 101-character name whose stripped length is 2: 99 blanks then `"JD"`. -/
def paddedName : String :=
  String.mk (List.replicate 99 ' ' ++ ['J', 'D'])

/-- C7 counterexample: `paddedName` is non-empty, not whitespace-only, and its
trimmed length lies in `[2, 100]`, yet `Name(paddedName)` raises: the
100-character cap of `name.py` applies to the raw string (`len(self.value)`),
not the trimmed one. -/
theorem name_trimmed_range_claim_fails : paddedName ≠ "" ∧ pyStrip paddedName ≠ "" ∧
    2 ≤ (pyStrip paddedName).length ∧ (pyStrip paddedName).length ≤ 100 ∧
    (Name.construct paddedName).isOk = false := by decide

/-- C7 (amended): `Name(n)` constructs successfully iff the trimmed length of
`n` is at least 2 and the raw length of `n` is at most 100 (non-emptiness and
non-whitespace-onlyness follow from the trimmed lower bound); otherwise
construction fails with a `ValueError` and no value exists. -/
theorem name_construct_iff (s : String) :
    (Name.construct s).isOk = true ↔
      2 ≤ (pyStrip s).length ∧ s.length ≤ 100 := by
  unfold Name.construct
  split
  next h =>
    have hlen : (pyStrip s).length = 0 := by
      rcases h with h | h
      · subst h; decide
      · rw [h]; decide
    simp [Except.isOk, Except.toBool, hlen]
  next h1 =>
    split
    next h2 => simp [Except.isOk, Except.toBool]; omega
    next h2 =>
      split
      next h3 => simp [Except.isOk, Except.toBool]; omega
      next h3 => simp [Except.isOk, Except.toBool]; omega

/-- Inversion for `User.create`: on success the user is fully determined by
the inputs, with exactly one buffered `UserCreated` event. -/
theorem User.create_ok {newId : ObjectId} {now : Timestamp}
    {p : UserProperties} {user : User} (h : User.create newId now p = .ok user) :
    user = { id := newId, name := ⟨p.name⟩, age := ⟨p.age⟩, email := ⟨p.email⟩,
             domain_events :=
               [DomainEvent.userCreated newId now p.name p.email p.age] } := by
  unfold User.create at h
  cases hn : Name.construct p.name with
  | error m => rw [hn] at h; exact Except.noConfusion h
  | ok n =>
    rw [hn] at h
    cases ha : Age.construct p.age with
    | error m => rw [ha] at h; exact Except.noConfusion h
    | ok a =>
      rw [ha] at h
      cases he : Email.construct p.email with
      | error m => rw [he] at h; exact Except.noConfusion h
      | ok e =>
        rw [he] at h
        cases name_construct_ok hn
        cases age_construct_ok ha
        cases email_construct_ok he
        exact (Except.ok.inj h).symm

/-- Inversion for `User.restore`: on success the user carries the supplied
id, the validated value objects, and an empty event buffer, and each value
object passed its own construction. -/
theorem User.restore_ok {user_id : ObjectId} {p : UserProperties} {user : User}
    (h : User.restore user_id p = .ok user) :
    user = { id := user_id, name := ⟨p.name⟩, age := ⟨p.age⟩, email := ⟨p.email⟩,
             domain_events := [] } ∧
    Name.construct p.name = .ok ⟨p.name⟩ ∧
    Age.construct p.age = .ok ⟨p.age⟩ ∧
    Email.construct p.email = .ok ⟨p.email⟩ := by
  unfold User.restore at h
  cases hn : Name.construct p.name with
  | error m => rw [hn] at h; exact Except.noConfusion h
  | ok n =>
    rw [hn] at h
    cases ha : Age.construct p.age with
    | error m => rw [ha] at h; exact Except.noConfusion h
    | ok a =>
      rw [ha] at h
      cases he : Email.construct p.email with
      | error m => rw [he] at h; exact Except.noConfusion h
      | ok e =>
        rw [he] at h
        cases name_construct_ok hn
        cases age_construct_ok ha
        cases email_construct_ok he
        exact ⟨(Except.ok.inj h).symm, rfl, rfl, rfl⟩

/-- C4: after a successful `User.create(p)` the event buffer holds exactly
one `UserCreated` event whose `aggregate_id` is the new user's id and whose
`name`, `email`, `age` are the raw property values; `clear_domain_events()`
then empties the buffer. -/
theorem user_create_buffers_single_event (newId : ObjectId) (now : Timestamp)
    (p : UserProperties) (user : User)
    (h : User.create newId now p = .ok user) :
    user.domain_events =
      [DomainEvent.userCreated user.id now p.name p.email p.age] ∧
    user.id = newId ∧
    user.clear_domain_events.domain_events = [] := by
  cases User.create_ok h
  exact ⟨rfl, rfl, rfl⟩

/-- C4 witness at `p = ("Jane Doe", 30, "jane@example.com")`. -/
theorem user_create_buffers_single_event_witness :
    (User.mk 1 ⟨"Jane Doe"⟩ ⟨30⟩ ⟨"jane@example.com"⟩
        [DomainEvent.userCreated 1 5 "Jane Doe" "jane@example.com" 30]).domain_events =
      [DomainEvent.userCreated
        (User.mk 1 ⟨"Jane Doe"⟩ ⟨30⟩ ⟨"jane@example.com"⟩
          [DomainEvent.userCreated 1 5 "Jane Doe" "jane@example.com" 30]).id
        5 "Jane Doe" "jane@example.com" 30] ∧
    (User.mk 1 ⟨"Jane Doe"⟩ ⟨30⟩ ⟨"jane@example.com"⟩
        [DomainEvent.userCreated 1 5 "Jane Doe" "jane@example.com" 30]).id = 1 ∧
    (User.mk 1 ⟨"Jane Doe"⟩ ⟨30⟩ ⟨"jane@example.com"⟩
        [DomainEvent.userCreated 1 5 "Jane Doe" "jane@example.com" 30]).clear_domain_events.domain_events = [] :=
  user_create_buffers_single_event 1 5 ⟨"Jane Doe", 30, "jane@example.com"⟩
    (User.mk 1 ⟨"Jane Doe"⟩ ⟨30⟩ ⟨"jane@example.com"⟩
      [DomainEvent.userCreated 1 5 "Jane Doe" "jane@example.com" 30]) (by rfl)

/-- C5: `change_email(s)` with a valid `s` replaces the email field in place
with the validated `Email(s)`, keeps id, name, age and the earlier buffer
entries, and appends exactly one `UserEmailChanged` event carrying the
previous raw email as `old_email` and `s` as `new_email`; no exception. -/
theorem change_email_ok (u : User) (now : Timestamp) (s : String) (vo : Email)
    (h : Email.construct s = .ok vo) :
    u.change_email now s =
      ({ u with
          email := vo,
          domain_events := u.domain_events ++
            [DomainEvent.userEmailChanged u.id now u.email.value s] }, none) := by
  unfold User.change_email
  rw [h]
  rfl

/-- C5 witness: changing `"jane@example.com"` to `"jane2@example.com"`. -/
theorem change_email_ok_witness :
    (User.mk 7 ⟨"Jane Doe"⟩ ⟨30⟩ ⟨"jane@example.com"⟩ []).change_email 9 "jane2@example.com" =
      (User.mk 7 ⟨"Jane Doe"⟩ ⟨30⟩ ⟨"jane2@example.com"⟩
        [DomainEvent.userEmailChanged 7 9 "jane@example.com" "jane2@example.com"], none) :=
  change_email_ok (User.mk 7 ⟨"Jane Doe"⟩ ⟨30⟩ ⟨"jane@example.com"⟩ [])
    9 "jane2@example.com" ⟨"jane2@example.com"⟩ (by rfl)

/-- C9: `change_email(s)` with an invalid `s` raises the `ValueError` from
`Email(s)` and leaves the user untouched: the email field still holds the
previous value and the event buffer is exactly what it was. -/
theorem change_email_invalid_unchanged (u : User) (now : Timestamp)
    (s : String) (msg : String) (h : Email.construct s = .error msg) :
    u.change_email now s = (u, some msg) := by
  unfold User.change_email
  rw [h]

/-- C9 witness at the malformed email `"bad-email"`. -/
theorem change_email_invalid_unchanged_witness :
    (User.mk 7 ⟨"Jane Doe"⟩ ⟨30⟩ ⟨"jane@example.com"⟩ []).change_email 9 "bad-email" =
      (User.mk 7 ⟨"Jane Doe"⟩ ⟨30⟩ ⟨"jane@example.com"⟩ [], some "Invalid email format") :=
  change_email_invalid_unchanged (User.mk 7 ⟨"Jane Doe"⟩ ⟨30⟩ ⟨"jane@example.com"⟩ [])
    9 "bad-email" "Invalid email format" (by rfl)

/-- C2: with handlers `h1` then `h2` subscribed to `t` on a fresh dispatcher,
dispatching one event of runtime type `t` (whose handlers do not raise)
invokes `h1` then `h2`, each exactly once, in registration order; subscribing
the same handler twice runs it twice; an event of a different runtime type
triggers no invocation at all. -/
theorem dispatch_fanout {H ε : Type} (behave : H → DomainEvent → Option ε)
    (t : EventType) (h1 h2 : H) (e : DomainEvent)
    (hb1 : behave h1 e = none) (hb2 : behave h2 e = none) (ht : e.typeOf = t) :
    (((EventDispatcher.empty.subscribe t h1).subscribe t h2).dispatch behave [e]
        = ([(h1, e), (h2, e)], none)) ∧
    (((EventDispatcher.empty.subscribe t h1).subscribe t h1).dispatch behave [e]
        = ([(h1, e), (h1, e)], none)) ∧
    ∀ e2 : DomainEvent, e2.typeOf ≠ t →
      ((EventDispatcher.empty.subscribe t h1).subscribe t h2).dispatch behave [e2]
        = ([], none) := by
  refine ⟨?_, ?_, ?_⟩
  · simp [EventDispatcher.dispatch, EventDispatcher.subscribe, EventDispatcher.empty,
      runHandlers, ht, hb1, hb2]
  · simp [EventDispatcher.dispatch, EventDispatcher.subscribe, EventDispatcher.empty,
      runHandlers, ht, hb1]
  · intro e2 ht2
    simp [EventDispatcher.dispatch, EventDispatcher.subscribe, EventDispatcher.empty,
      runHandlers, ht2]

/-- C2 witness: two distinct handlers (and the same handler twice) on the
`UserCreated` runtime type, with a `UserCreated` instance dispatched. -/
theorem dispatch_fanout_witness :
    ((((EventDispatcher.empty (H := Nat)).subscribe .userCreatedType 1).subscribe
          .userCreatedType 2).dispatch (fun _ _ => (none : Option Unit))
        [DomainEvent.userCreated 0 0 "Jane Doe" "jane@example.com" 30]
      = ([(1, DomainEvent.userCreated 0 0 "Jane Doe" "jane@example.com" 30),
          (2, DomainEvent.userCreated 0 0 "Jane Doe" "jane@example.com" 30)], none)) ∧
    ((((EventDispatcher.empty (H := Nat)).subscribe .userCreatedType 1).subscribe
          .userCreatedType 1).dispatch (fun _ _ => (none : Option Unit))
        [DomainEvent.userCreated 0 0 "Jane Doe" "jane@example.com" 30]
      = ([(1, DomainEvent.userCreated 0 0 "Jane Doe" "jane@example.com" 30),
          (1, DomainEvent.userCreated 0 0 "Jane Doe" "jane@example.com" 30)], none)) ∧
    ∀ e2 : DomainEvent, e2.typeOf ≠ .userCreatedType →
      (((EventDispatcher.empty (H := Nat)).subscribe .userCreatedType 1).subscribe
          .userCreatedType 2).dispatch (fun _ _ => (none : Option Unit)) [e2]
        = ([], none) :=
  dispatch_fanout (fun _ _ => none) .userCreatedType 1 2
    (DomainEvent.userCreated 0 0 "Jane Doe" "jane@example.com" 30) rfl rfl rfl

/-- The inner handler loop over `hs1 ++ h :: hs2`: when every handler of
`hs1` succeeds (trace `trA`) and `h` raises `err`, the invocations are
exactly `trA` then `h`, the handlers of `hs2` are never invoked, and `err`
escapes. -/
theorem runHandlers_abort {H ε : Type} (behave : H → DomainEvent → Option ε)
    (e : DomainEvent) (hs1 : List H) (h : H) (hs2 : List H)
    (trA : List (H × DomainEvent)) (err : ε)
    (h1 : runHandlers behave e hs1 = (trA, none)) (hf : behave h e = some err) :
    runHandlers behave e (hs1 ++ h :: hs2) = (trA ++ [(h, e)], some err) := by
  induction hs1 generalizing trA with
  | nil =>
    simp only [runHandlers] at h1
    injection h1 with h1a h1b
    subst h1a
    simp [runHandlers, hf]
  | cons x xs ih =>
    simp only [List.cons_append, runHandlers] at h1 ⊢
    cases hb : behave x e with
    | some err2 =>
      rw [hb] at h1
      simp at h1
    | none =>
      cases hxs : runHandlers behave e xs with
      | mk tr r =>
        rw [hb, hxs] at h1
        injection h1 with h1a h1b
        have hr : r = none := h1b
        subst hr
        subst h1a
        simp [List.append_eq, ih tr hxs]

/-- Dispatching `es1 ++ es2` when every handler of `es1` succeeds: the batch
continues into `es2` and the traces concatenate. -/
theorem dispatch_ok_append {H ε : Type} (d : EventDispatcher H)
    (behave : H → DomainEvent → Option ε) (es1 : List DomainEvent)
    (tr1 : List (H × DomainEvent))
    (h1 : d.dispatch behave es1 = (tr1, none)) (es2 : List DomainEvent) :
    d.dispatch behave (es1 ++ es2) =
      (tr1 ++ (d.dispatch behave es2).1, (d.dispatch behave es2).2) := by
  induction es1 generalizing tr1 with
  | nil =>
    simp only [EventDispatcher.dispatch] at h1
    injection h1 with h1a h1b
    subst h1a
    simp
  | cons e es ih =>
    simp only [List.cons_append, EventDispatcher.dispatch] at h1 ⊢
    cases hrh : runHandlers behave e (d.handlers e.typeOf) with
    | mk trh rh =>
      cases rh with
      | some err =>
        rw [hrh] at h1
        replace h1 : (trh, some err) = (tr1, none) := h1
        injection h1 with h1a h1b
        exact Option.noConfusion h1b
      | none =>
        rw [hrh] at h1
        cases hds : d.dispatch behave es with
        | mk tr2 r2 =>
          rw [hds] at h1
          replace h1 : (trh ++ tr2, r2) = (tr1, none) := h1
          injection h1 with h1a h1b
          subst h1b
          subst h1a
          simp only [List.append_eq]
          rw [ih tr2 hds]
          simp [List.append_assoc]

/-- C3: if, while dispatching a batch, some handler `h` of event `e` raises
`err` (after predecessors `es1` were fully handled with trace `tr1` and the
earlier handlers `hs1` of `e` succeeded with trace `trA`), that error
escapes `dispatch` at once: the invocations are exactly
`tr1 ++ trA ++ [(h, e)]`, so the remaining handlers `hs2` of `e` and all
events after `e` in the batch are never processed. -/
theorem dispatch_aborts_on_handler_error {H ε : Type} (d : EventDispatcher H)
    (behave : H → DomainEvent → Option ε)
    (es1 : List DomainEvent) (e : DomainEvent) (es2 : List DomainEvent)
    (hs1 : List H) (h : H) (hs2 : List H)
    (tr1 trA : List (H × DomainEvent)) (err : ε)
    (hd : d.handlers e.typeOf = hs1 ++ h :: hs2)
    (h1 : d.dispatch behave es1 = (tr1, none))
    (hA : runHandlers behave e hs1 = (trA, none))
    (hf : behave h e = some err) :
    d.dispatch behave (es1 ++ e :: es2) = (tr1 ++ trA ++ [(h, e)], some err) := by
  have hone : d.dispatch behave (e :: es2) = (trA ++ [(h, e)], some err) := by
    simp only [EventDispatcher.dispatch]
    rw [hd, runHandlers_abort behave e hs1 h hs2 trA err hA hf]
  rw [dispatch_ok_append d behave es1 tr1 h1 (e :: es2), hone]
  simp [List.append_assoc]

/-- C3 witness: three handlers subscribed to `UserCreated`; the second raises
`"boom"` on the first event of a two-event batch, so the third handler and
the whole second event are skipped. -/
theorem dispatch_aborts_on_handler_error_witness :
    ((((EventDispatcher.empty (H := Nat)).subscribe .userCreatedType 1).subscribe
          .userCreatedType 2).subscribe .userCreatedType 3).dispatch
        (fun h _ => if h = 2 then some "boom" else none)
        ([] ++ DomainEvent.userCreated 0 0 "Jane Doe" "jane@example.com" 30 ::
          [DomainEvent.userEmailChanged 0 0 "a@b.co" "c@d.co"]) =
      ([] ++ [(1, DomainEvent.userCreated 0 0 "Jane Doe" "jane@example.com" 30)] ++
        [(2, DomainEvent.userCreated 0 0 "Jane Doe" "jane@example.com" 30)], some "boom") :=
  dispatch_aborts_on_handler_error
    ((((EventDispatcher.empty (H := Nat)).subscribe .userCreatedType 1).subscribe
        .userCreatedType 2).subscribe .userCreatedType 3)
    (fun h _ => if h = 2 then some "boom" else none)
    [] (DomainEvent.userCreated 0 0 "Jane Doe" "jane@example.com" 30)
    [DomainEvent.userEmailChanged 0 0 "a@b.co" "c@d.co"]
    [1] 2 [3]
    [] [(1, DomainEvent.userCreated 0 0 "Jane Doe" "jane@example.com" 30)] "boom"
    rfl rfl rfl rfl

/-- C1: in both mutating use cases (`CreateUser`, `UpdateUser`), events are
dispatched only after the repository persistence call returns: when the
write raises, `execute` re-raises it as a persistence failure, no handler is
ever invoked (the trace is empty), and the aggregate still holds its
unflushed event buffer exactly as built before the call. -/
theorem persistence_failure_means_no_dispatch (H ε : Type) :
    (∀ (repo_create : User → Except String User) (d : EventDispatcher H)
        (behave : H → DomainEvent → Option ε) (newId : ObjectId) (now : Timestamp)
        (command : CreateUserCommand) (user : User) (msg : String),
      User.create newId now ⟨command.name, command.age, command.email⟩ = .ok user →
      repo_create user = .error msg →
      CreateUserUseCase.execute repo_create d behave newId now command =
        { result := .error (.persistence msg), trace := [], aggregate := some user }) ∧
    (∀ (get_user_by_id : String → Option User)
        (update_user : String → User → Except String (Option User))
        (d : EventDispatcher H) (behave : H → DomainEvent → Option ε)
        (command : UpdateUserCommand) (existing_user updated_user : User) (msg : String),
      get_user_by_id command.user_id = some existing_user →
      User.restore existing_user.id
        ⟨command.name.getD existing_user.name.value,
          command.age.getD existing_user.age.value,
          command.email.getD existing_user.email.value⟩ = .ok updated_user →
      update_user command.user_id updated_user = .error msg →
      UpdateUserUseCase.execute get_user_by_id update_user d behave command =
        { result := .error (.persistence msg), trace := [],
          aggregate := some updated_user }) := by
  constructor
  · intro repo_create d behave newId now command user msg hc hr
    unfold CreateUserUseCase.execute
    rw [hc]
    dsimp only
    rw [hr]
  · intro get_user_by_id update_user d behave command existing_user updated_user msg
      hget hres hupd
    unfold UpdateUserUseCase.execute
    rw [hget]
    dsimp only
    rw [hres]
    dsimp only
    rw [hupd]

/-- C6: a successful `UpdateUser` on a stored user keeps the stored
identifier, keeps the stored raw value of every field the command leaves
unset, and builds every provided field by whole-value-object validation. -/
theorem update_partial_semantics {H ε : Type}
    (get_user_by_id : String → Option User)
    (update_user : String → User → Except String (Option User))
    (d : EventDispatcher H) (behave : H → DomainEvent → Option ε)
    (command : UpdateUserCommand) (existing_user u : User)
    (hget : get_user_by_id command.user_id = some existing_user)
    (hok : (UpdateUserUseCase.execute get_user_by_id update_user d behave
        command).result = .ok u) :
    u.id = existing_user.id ∧
    (command.name = none → u.name.value = existing_user.name.value) ∧
    (∀ s, command.name = some s → Name.construct s = .ok u.name) ∧
    (command.age = none → u.age.value = existing_user.age.value) ∧
    (∀ n, command.age = some n → Age.construct n = .ok u.age) ∧
    (command.email = none → u.email.value = existing_user.email.value) ∧
    (∀ s, command.email = some s → Email.construct s = .ok u.email) := by
  unfold UpdateUserUseCase.execute at hok
  rw [hget] at hok
  dsimp only at hok
  cases hres : User.restore existing_user.id
      ⟨command.name.getD existing_user.name.value,
        command.age.getD existing_user.age.value,
        command.email.getD existing_user.email.value⟩ with
  | error m =>
    rw [hres] at hok
    dsimp only at hok
    exact Except.noConfusion hok
  | ok updated_user =>
    rw [hres] at hok
    dsimp only at hok
    cases hupd : update_user command.user_id updated_user with
    | error m =>
      rw [hupd] at hok
      dsimp only at hok
      exact Except.noConfusion hok
    | ok r0 =>
      rw [hupd] at hok
      dsimp only at hok
      obtain ⟨hrec, hn, ha, he⟩ := User.restore_ok hres
      subst hrec
      replace hok : Except.ok (User.clear_domain_events
          { id := existing_user.id,
            name := ⟨command.name.getD existing_user.name.value⟩,
            age := ⟨command.age.getD existing_user.age.value⟩,
            email := ⟨command.email.getD existing_user.email.value⟩,
            domain_events := [] }) = Except.ok u := hok
      injection hok with hok2
      subst hok2
      refine ⟨rfl, ?_, ?_, ?_, ?_, ?_, ?_⟩
      · intro h0; rw [h0]; rfl
      · intro s hs; rw [hs] at hn ⊢; exact hn
      · intro h0; rw [h0]; rfl
      · intro n hs; rw [hs] at ha ⊢; exact ha
      · intro h0; rw [h0]; rfl
      · intro s hs; rw [hs] at he ⊢; exact he

/-- C6 witness: updating only the email of a stored user keeps id, name and
age and validates the new email. -/
theorem update_partial_semantics_witness :
    (User.mk 9 ⟨"Jane Doe"⟩ ⟨30⟩ ⟨"jane2@example.com"⟩ []).id =
      (User.mk 9 ⟨"Jane Doe"⟩ ⟨30⟩ ⟨"jane@example.com"⟩ []).id ∧
    ((⟨"9", none, none, some "jane2@example.com"⟩ : UpdateUserCommand).name = none →
      (User.mk 9 ⟨"Jane Doe"⟩ ⟨30⟩ ⟨"jane2@example.com"⟩ []).name.value =
        (User.mk 9 ⟨"Jane Doe"⟩ ⟨30⟩ ⟨"jane@example.com"⟩ []).name.value) ∧
    (∀ s, (⟨"9", none, none, some "jane2@example.com"⟩ : UpdateUserCommand).name = some s →
      Name.construct s = .ok (User.mk 9 ⟨"Jane Doe"⟩ ⟨30⟩ ⟨"jane2@example.com"⟩ []).name) ∧
    ((⟨"9", none, none, some "jane2@example.com"⟩ : UpdateUserCommand).age = none →
      (User.mk 9 ⟨"Jane Doe"⟩ ⟨30⟩ ⟨"jane2@example.com"⟩ []).age.value =
        (User.mk 9 ⟨"Jane Doe"⟩ ⟨30⟩ ⟨"jane@example.com"⟩ []).age.value) ∧
    (∀ n, (⟨"9", none, none, some "jane2@example.com"⟩ : UpdateUserCommand).age = some n →
      Age.construct n = .ok (User.mk 9 ⟨"Jane Doe"⟩ ⟨30⟩ ⟨"jane2@example.com"⟩ []).age) ∧
    ((⟨"9", none, none, some "jane2@example.com"⟩ : UpdateUserCommand).email = none →
      (User.mk 9 ⟨"Jane Doe"⟩ ⟨30⟩ ⟨"jane2@example.com"⟩ []).email.value =
        (User.mk 9 ⟨"Jane Doe"⟩ ⟨30⟩ ⟨"jane@example.com"⟩ []).email.value) ∧
    (∀ s, (⟨"9", none, none, some "jane2@example.com"⟩ : UpdateUserCommand).email = some s →
      Email.construct s = .ok (User.mk 9 ⟨"Jane Doe"⟩ ⟨30⟩ ⟨"jane2@example.com"⟩ []).email) :=
  update_partial_semantics
    (fun _ => some (User.mk 9 ⟨"Jane Doe"⟩ ⟨30⟩ ⟨"jane@example.com"⟩ []))
    (fun _ _ => Except.ok none) (EventDispatcher.empty (H := Unit))
    (fun _ _ => (none : Option Unit))
    ⟨"9", none, none, some "jane2@example.com"⟩
    (User.mk 9 ⟨"Jane Doe"⟩ ⟨30⟩ ⟨"jane@example.com"⟩ [])
    (User.mk 9 ⟨"Jane Doe"⟩ ⟨30⟩ ⟨"jane2@example.com"⟩ [])
    rfl (by rfl)

/-- C8: `UpdateUser` dispatches zero domain events on every run — the
aggregate it persists is rebuilt via `User.restore`, whose event buffer is
empty, so even an email change produces no `UserEmailChanged` dispatch. -/
theorem update_execute_dispatches_nothing {H ε : Type}
    (get_user_by_id : String → Option User)
    (update_user : String → User → Except String (Option User))
    (d : EventDispatcher H) (behave : H → DomainEvent → Option ε)
    (command : UpdateUserCommand) :
    (UpdateUserUseCase.execute get_user_by_id update_user d behave command).trace = [] ∧
    ∀ (user_id : ObjectId) (p : UserProperties) (u : User),
      User.restore user_id p = .ok u → u.domain_events = [] := by
  constructor
  · unfold UpdateUserUseCase.execute
    cases hget : get_user_by_id command.user_id with
    | none => rfl
    | some existing_user =>
      dsimp only
      cases hres : User.restore existing_user.id
          ⟨command.name.getD existing_user.name.value,
            command.age.getD existing_user.age.value,
            command.email.getD existing_user.email.value⟩ with
      | error m => rfl
      | ok updated_user =>
        dsimp only
        have hev : updated_user.domain_events = [] := by
          rw [(User.restore_ok hres).1]
        cases hupd : update_user command.user_id updated_user with
        | error m => rfl
        | ok r0 =>
          dsimp only
          rw [hev]
          rfl
  · intro user_id p u h
    rw [(User.restore_ok h).1]

/-- `str.split(sep)` on text without the separator yields one part. -/
theorem pySplit_no_sep {sep : Char} {cs : List Char} (h : sep ∉ cs) :
    pySplit sep cs = [cs] := by
  induction cs with
  | nil => rfl
  | cons c cs ih =>
    simp only [List.mem_cons, not_or] at h
    obtain ⟨h1, h2⟩ := h
    have hc : ¬(c = sep) := fun e => h1 e.symm
    simp only [pySplit, if_neg hc, ih h2]

/-- `str.split(sep)` at the first separator occurrence. -/
theorem pySplit_append {sep : Char} {l : List Char} (r : List Char) (h : sep ∉ l) :
    pySplit sep (l ++ sep :: r) = l :: pySplit sep r := by
  induction l with
  | nil => simp [pySplit]
  | cons c cs ih =>
    simp only [List.mem_cons, not_or] at h
    obtain ⟨h1, h2⟩ := h
    have hc : ¬(c = sep) := fun e => h1 e.symm
    simp only [List.cons_append, List.append_eq, pySplit, if_neg hc, ih h2]

/-- `splitLastDot` really splits at a dot. -/
theorem splitLastDot_eq {cs d t : List Char} (h : splitLastDot cs = some (d, t)) :
    cs = d ++ '.' :: t := by
  induction cs generalizing d t with
  | nil => exact Option.noConfusion h
  | cons c cs ih =>
    simp only [splitLastDot] at h
    cases hr : splitLastDot cs with
    | some p =>
      obtain ⟨d2, t2⟩ := p
      rw [hr] at h
      injection h with h2
      injection h2 with h3 h4
      subst h3
      subst h4
      rw [ih hr]
      rfl
    | none =>
      rw [hr] at h
      replace h : (if c = '.' then some ([], cs) else none) = some (d, t) := h
      by_cases hc : c = '.'
      · rw [if_pos hc] at h
        injection h with h2
        injection h2 with h3 h4
        subst h3
        subst h4
        subst hc
        rfl
      · rw [if_neg hc] at h
        exact Option.noConfusion h

/-- A string accepted by the email regex decomposes as a non-empty local
run, one `'@'`, and a remainder, with `'@'` in neither side. -/
theorem emailRegexMatch_structure {s : String} (h : emailRegexMatch s = true) :
    ∃ l r, s.data = l ++ '@' :: r ∧ l ≠ [] ∧ '@' ∉ l ∧ '@' ∉ r := by
  unfold emailRegexMatch at h
  dsimp only at h
  split at h
  next r heq =>
    rw [Bool.and_eq_true] at h
    obtain ⟨h1, h2⟩ := h
    have hlne : s.data.takeWhile isLocalChar ≠ [] := by simpa using h1
    have hsplit : s.data = s.data.takeWhile isLocalChar ++ '@' :: r := by
      conv_lhs => rw [← List.takeWhile_append_dropWhile isLocalChar s.data]
      rw [heq]
    have hl : '@' ∉ s.data.takeWhile isLocalChar := by
      intro hm
      exact absurd (List.mem_takeWhile_imp hm) (by decide)
    have hr2 : ∀ cs2 : List Char, matchDomainTail cs2 = true → '@' ∉ cs2 := by
      intro cs2 hm
      unfold matchDomainTail at hm
      cases hsd : splitLastDot cs2 with
      | none => rw [hsd] at hm; exact Bool.noConfusion hm
      | some p =>
        obtain ⟨d2, t2⟩ := p
        rw [hsd] at hm
        rw [splitLastDot_eq hsd]
        simp only [Bool.and_eq_true] at hm
        obtain ⟨⟨⟨hne, hd2⟩, hlen⟩, ht2⟩ := hm
        intro hmem
        rw [List.mem_append] at hmem
        rcases hmem with hmem | hmem
        · exact absurd (List.all_eq_true.mp hd2 _ hmem) (by decide)
        · rw [List.mem_cons] at hmem
          rcases hmem with hmem | hmem
          · exact absurd hmem (by decide)
          · exact absurd (List.all_eq_true.mp ht2 _ hmem) (by decide)
    have hrr : '@' ∉ r := by
      split at h2
      next hlast =>
        have hd := hr2 _ h2
        intro hm
        rw [← List.dropLast_append_getLast? '\n' hlast] at hm
        rw [List.mem_append] at hm
        rcases hm with hm | hm
        · exact hd hm
        · rw [List.mem_cons] at hm
          rcases hm with hm | hm
          · exact absurd hm (by decide)
          · exact absurd hm (List.not_mem_nil _)
      next hlast => exact hr2 _ h2
    exact ⟨s.data.takeWhile isLocalChar, r, hsplit, hlne, hl, hrr⟩
  next heq => exact Bool.noConfusion h

/-- C10: for every successfully constructed `Email`,
`local_part ++ "@" ++ domain` reassembles the stored value, neither part
contains `'@'`, and the validated value holds exactly one `'@'`. -/
theorem email_local_domain_split (s : String) (e : Email)
    (h : Email.construct s = .ok e) :
    e.local_part ++ "@" ++ e.domain = e.value ∧
    '@' ∉ e.local_part.data ∧ '@' ∉ e.domain.data ∧
    e.value.data.count '@' = 1 := by
  cases email_construct_ok h
  obtain ⟨l, r, hsplit, hlne, hl, hr⟩ :=
    emailRegexMatch_structure (email_construct_ok_match h)
  have hps : pySplit '@' s.data = [l, r] := by
    rw [hsplit, pySplit_append r hl, pySplit_no_sep hr]
  refine ⟨?_, ?_, ?_, ?_⟩
  · show String.mk ((pySplit '@' s.data).getD 0 []) ++ "@" ++
        String.mk ((pySplit '@' s.data).getD 1 []) = s
    rw [hps]
    apply String.ext
    rw [String.data_append, String.data_append]
    show l ++ ['@'] ++ r = s.data
    rw [hsplit, List.append_assoc]
    rfl
  · show '@' ∉ (String.mk ((pySplit '@' s.data).getD 0 [])).data
    rw [hps]
    exact hl
  · show '@' ∉ (String.mk ((pySplit '@' s.data).getD 1 [])).data
    rw [hps]
    exact hr
  · show s.data.count '@' = 1
    rw [hsplit, List.count_append, List.count_cons]
    rw [List.count_eq_zero.mpr hl, List.count_eq_zero.mpr hr]
    simp

/-- C10 witness at `"jane@example.com"`. -/
theorem email_local_domain_split_witness :
    (Email.mk "jane@example.com").local_part ++ "@" ++
        (Email.mk "jane@example.com").domain = (Email.mk "jane@example.com").value ∧
    '@' ∉ (Email.mk "jane@example.com").local_part.data ∧
    '@' ∉ (Email.mk "jane@example.com").domain.data ∧
    (Email.mk "jane@example.com").value.data.count '@' = 1 :=
  email_local_domain_split "jane@example.com" (Email.mk "jane@example.com") (by rfl)
